import Mathlib

/-!
Verification of the Lineage/Halium light HAL implementation
(`src/light/Light.cpp`, motorola sm6150-common) against its
natural-language specification.

The C++ file is shallowly embedded: every sysfs write performed by a
handler is recorded as an `AttrWrite` (path plus the value passed to the
`set` template, if any), in program order.  The single sysfs read
(`get(LCD_LED MAX_BRIGHTNESS, -1)` in `handleBacklight`) is modelled by an
explicit environment parameter `maxBrightnessRead : Option Int`, where
`Option.none` stands for a failed read (in which case `get` returns the
default `-1`).  Machine integers are modelled as `Nat` (for `uint32_t`
values, where no intermediate result can reach `2 ^ 32`) and `Int` (for
`int` / `int32_t` values), with explicit wrapping conversions where the
source converts between them.
-/

namespace LightHAL

/-- HIDL `Flash` enum (android.hardware.light@2.0 `types.hal`). -/
inductive Flash where
  | NONE
  | TIMED
  | HARDWARE
deriving DecidableEq, Repr

/-- HIDL `Type` enum (android.hardware.light@2.0 `types.hal`); named
`LightType` because `Type` is reserved in Lean. -/
inductive LightType where
  | BACKLIGHT
  | KEYBOARD
  | BUTTONS
  | BATTERY
  | NOTIFICATIONS
  | ATTENTION
  | BLUETOOTH
  | WIFI
  | COUNT
deriving DecidableEq, BEq, Repr

/-- HIDL `Status` enum (android.hardware.light@2.0 `types.hal`). -/
inductive Status where
  | SUCCESS
  | LIGHT_NOT_SUPPORTED
  | BRIGHTNESS_NOT_SUPPORTED
  | UNKNOWN
deriving DecidableEq, Repr

/-- HIDL `LightState`: `color` is the packed `0xAARRGGBB` `uint32_t`;
`flashOnMs` and `flashOffMs` are `int32_t`. -/
structure LightState where
  color : Nat
  flashMode : Flash
  flashOnMs : Int
  flashOffMs : Int
deriving DecidableEq, Repr

/-- A value passed to the `set` template: handlers write either integers
or (for breath patterns) strings. -/
inductive AttrValue where
  | intVal : Int → AttrValue
  | strVal : String → AttrValue
deriving DecidableEq, Repr

/-- One call of the `set` template: the sysfs path and the value written.
`value = Option.none` records a call of `set` with the path argument only
(as in `handleBacklight`, where the value argument is missing). -/
structure AttrWrite where
  path : String
  value : Option AttrValue
deriving DecidableEq, Repr

/-! Path constants, from the `#define`s at the top of `Light.cpp`. -/

def LEDS : String := "/sys/class/leds/"

def LCD_LED : String := "/sys/class/backlight/panel0-backlight/"

def BLUE_LED : String := LEDS ++ "blue_moto/"

def CHARGING_LED : String := LEDS ++ "charging/"

def GREEN_LED : String := LEDS ++ "green_moto/"

def RED_LED : String := LEDS ++ "red_moto/"

def BREATH : String := "breath"

def BREATH_PATTERN : String := "breath_pattern"

def BRIGHTNESS : String := "brightness"

def MAX_BRIGHTNESS : String := "max_brightness"

/-! Machine-integer conversions used at the `getBreathPatternValue` call
(`int32_t` arguments converted to the `uint32_t` parameters, then printed
with `%d`, i.e. reinterpreted as `int32_t`). -/

/-- C++ conversion `int32_t → uint32_t` (reduction modulo `2 ^ 32`). -/
def uint32OfInt32 (i : Int) : Nat := (i % 2 ^ 32).toNat

/-- Reinterpretation of a `uint32_t` bit pattern as `int32_t`, as done by
printing a `uint32_t` with the `%d` conversion. -/
def int32OfUInt32 (v : Nat) : Int :=
  if v < 2 ^ 31 then (v : Int) else (v : Int) - 2 ^ 32

/-- `getBreathPatternValue`: `snprintf(buffer, 40, "%d %d %d %d\n",
pauseLo, pauseHi, pauseLo, pauseHi)` followed by `std::string ret =
buffer`.  `snprintf` stores at most 39 characters plus the terminating
null in the 40-byte buffer, so the result is the formatted string
truncated to its first 39 characters. -/
def getBreathPatternValue (pauseHi pauseLo : Nat) : String :=
  (toString (int32OfUInt32 pauseLo) ++ " " ++ toString (int32OfUInt32 pauseHi) ++ " " ++
    toString (int32OfUInt32 pauseLo) ++ " " ++ toString (int32OfUInt32 pauseHi) ++ "\n").take 39

/-- `kDefaultMaxBrightness` constant. -/
def kDefaultMaxBrightness : Int := 255

/-- `rgbToBrightness`: masks the alpha byte off the packed color and
combines the channels with weights 77/150/29, shifted right by 8.  All
`uint32_t` arithmetic stays far below `2 ^ 32`, so `Nat` is exact. -/
def rgbToBrightness (state : LightState) : Nat :=
  let color := state.color &&& 0x00ffffff
  ((77 * ((color >>> 16) &&& 0xff)) + (150 * ((color >>> 8) &&& 0xff)) +
      (29 * (color &&& 0xff))) >>> 8

/-- The local `brightness` computed in `handleBacklight`:
`sentBrightness * maxBrightness / kDefaultMaxBrightness`, where
`maxBrightness` is the `max_brightness` read with `-1` substituted on
failure and `kDefaultMaxBrightness` substituted when negative.  (C++
`int` division truncates toward zero; both operands are nonnegative here,
so `Int.tdiv` is exact.) -/
def backlightComputedBrightness (maxBrightnessRead : Option Int) (state : LightState) : Int :=
  let maxBrightness0 : Int :=
    match maxBrightnessRead with
    | Option.none => -1
    | Option.some v => v
  let maxBrightness : Int :=
    if maxBrightness0 < 0 then kDefaultMaxBrightness else maxBrightness0
  let sentBrightness : Int := (rgbToBrightness state : Int)
  Int.tdiv (sentBrightness * maxBrightness) kDefaultMaxBrightness

/-- `handleBacklight`: reads `max_brightness`, computes the scaled
brightness, logs it, then calls `set(LCD_LED BRIGHTNESS);` — with no
value argument, so the single recorded write carries no value and the
computed brightness is discarded. -/
def handleBacklight (maxBrightnessRead : Option Int) (state : LightState) : List AttrWrite :=
  let _brightness : Int := backlightComputedBrightness maxBrightnessRead state
  [⟨LCD_LED ++ BRIGHTNESS, Option.none⟩]

/-- `handleBattery`: for each of the red, green and blue channel LEDs,
writes `breath` (0 when the luma is 0, else 1) and `brightness` (the
luma). -/
def handleBattery (state : LightState) : List AttrWrite :=
  let brightness : Int := (rgbToBrightness state : Int)
  [⟨RED_LED ++ BREATH, Option.some (AttrValue.intVal (if brightness = 0 then 0 else 1))⟩,
   ⟨RED_LED ++ BRIGHTNESS, Option.some (AttrValue.intVal brightness)⟩,
   ⟨GREEN_LED ++ BREATH, Option.some (AttrValue.intVal (if brightness = 0 then 0 else 1))⟩,
   ⟨GREEN_LED ++ BRIGHTNESS, Option.some (AttrValue.intVal brightness)⟩,
   ⟨BLUE_LED ++ BREATH, Option.some (AttrValue.intVal (if brightness = 0 then 0 else 1))⟩,
   ⟨BLUE_LED ++ BRIGHTNESS, Option.some (AttrValue.intVal brightness)⟩]

/-- The local `redBrightness` of `handleNotification` after the optional
alpha scaling: `(state.color >> 16) & 0xFF`, multiplied by the alpha byte
and divided by `0xFF` when the alpha byte is not `0xFF`. -/
def scaledRed (state : LightState) : Nat :=
  let redBrightness := (state.color >>> 16) &&& 0xFF
  let brightness := (state.color >>> 24) &&& 0xFF
  if brightness ≠ 0xFF then (redBrightness * brightness) / 0xFF else redBrightness

/-- The local `greenBrightness` of `handleNotification` after the
optional alpha scaling. -/
def scaledGreen (state : LightState) : Nat :=
  let greenBrightness := (state.color >>> 8) &&& 0xFF
  let brightness := (state.color >>> 24) &&& 0xFF
  if brightness ≠ 0xFF then (greenBrightness * brightness) / 0xFF else greenBrightness

/-- The local `blueBrightness` of `handleNotification` after the optional
alpha scaling. -/
def scaledBlue (state : LightState) : Nat :=
  let blueBrightness := state.color &&& 0xFF
  let brightness := (state.color >>> 24) &&& 0xFF
  if brightness ≠ 0xFF then (blueBrightness * brightness) / 0xFF else blueBrightness

/-- The unconditional "disable breathing" block of `handleNotification`:
`breath = 0` and `brightness = 0` on each of the three channels. -/
def clearWrites : List AttrWrite :=
  [⟨RED_LED ++ BREATH, Option.some (AttrValue.intVal 0)⟩,
   ⟨RED_LED ++ BRIGHTNESS, Option.some (AttrValue.intVal 0)⟩,
   ⟨GREEN_LED ++ BREATH, Option.some (AttrValue.intVal 0)⟩,
   ⟨GREEN_LED ++ BRIGHTNESS, Option.some (AttrValue.intVal 0)⟩,
   ⟨BLUE_LED ++ BREATH, Option.some (AttrValue.intVal 0)⟩,
   ⟨BLUE_LED ++ BRIGHTNESS, Option.some (AttrValue.intVal 0)⟩]

/-- `handleNotification` (shared by the `NOTIFICATIONS` and `ATTENTION`
entries of the dispatch table). -/
def handleNotification (state : LightState) : List AttrWrite :=
  let redBrightness := scaledRed state
  let greenBrightness := scaledGreen state
  let blueBrightness := scaledBlue state
  clearWrites ++
    (if state.flashMode = Flash.TIMED then
      let pauseHi : Int := state.flashOnMs
      let pauseLo : Int := state.flashOffMs
      let breath : Int := if pauseHi > 0 ∧ pauseLo > 0 then 1 else 0
      if breath ≠ 0 then
        if redBrightness > 0 ∨ greenBrightness > 0 ∨ blueBrightness > 0 then
          let pattern := getBreathPatternValue (uint32OfInt32 pauseHi) (uint32OfInt32 pauseLo)
          [⟨RED_LED ++ BREATH_PATTERN, Option.some (AttrValue.strVal pattern)⟩,
           ⟨RED_LED ++ BREATH, Option.some (AttrValue.intVal 1)⟩,
           ⟨RED_LED ++ BRIGHTNESS, Option.some (AttrValue.intVal kDefaultMaxBrightness)⟩,
           ⟨GREEN_LED ++ BREATH_PATTERN, Option.some (AttrValue.strVal pattern)⟩,
           ⟨GREEN_LED ++ BREATH, Option.some (AttrValue.intVal 1)⟩,
           ⟨GREEN_LED ++ BRIGHTNESS, Option.some (AttrValue.intVal kDefaultMaxBrightness)⟩,
           ⟨BLUE_LED ++ BREATH_PATTERN, Option.some (AttrValue.strVal pattern)⟩,
           ⟨BLUE_LED ++ BREATH, Option.some (AttrValue.intVal 1)⟩,
           ⟨BLUE_LED ++ BRIGHTNESS, Option.some (AttrValue.intVal kDefaultMaxBrightness)⟩]
        else []
      else []
    else
      if redBrightness > 0 ∨ greenBrightness > 0 ∨ blueBrightness > 0 then
        [⟨RED_LED ++ BRIGHTNESS, Option.some (AttrValue.intVal kDefaultMaxBrightness)⟩,
         ⟨GREEN_LED ++ BRIGHTNESS, Option.some (AttrValue.intVal kDefaultMaxBrightness)⟩,
         ⟨BLUE_LED ++ BRIGHTNESS, Option.some (AttrValue.intVal kDefaultMaxBrightness)⟩]
      else
        [⟨RED_LED ++ BRIGHTNESS, Option.some (AttrValue.intVal 0)⟩,
         ⟨GREEN_LED ++ BRIGHTNESS, Option.some (AttrValue.intVal 0)⟩,
         ⟨BLUE_LED ++ BRIGHTNESS, Option.some (AttrValue.intVal 0)⟩])

/-- A dispatch-table entry: a handler takes the environment (the result
of the one sysfs read, used only by `handleBacklight`) and the state, and
yields the writes it performs. -/
def Handler : Type := Option Int → LightState → List AttrWrite

/-- The `lights` `std::map`, as the ordered association list a `std::map`
stores: keys in increasing enum order (`BACKLIGHT = 0 < BATTERY = 3 <
NOTIFICATIONS = 4 < ATTENTION = 5`). -/
def lightsEntries : List (LightType × Handler) :=
  [(LightType.BACKLIGHT, fun env state => handleBacklight env state),
   (LightType.BATTERY, fun _ state => handleBattery state),
   (LightType.NOTIFICATIONS, fun _ state => handleNotification state),
   (LightType.ATTENTION, fun _ state => handleNotification state)]

/-- `lights.find(type)`: the handler bound to a type, if any. -/
def lights (t : LightType) : Option Handler :=
  Option.map Prod.snd (lightsEntries.find? (fun e => e.1 == t))

/-- `Light::setLight`: looks `type` up in the dispatch table; if absent
returns `LIGHT_NOT_SUPPORTED` having performed no writes, otherwise runs
the handler (under the global lock) and returns `SUCCESS`.  The result
pairs the returned status with the writes performed. -/
def setLight (env : Option Int) (t : LightType) (state : LightState) :
    Status × List AttrWrite :=
  match lights t with
  | Option.none => (Status.LIGHT_NOT_SUPPORTED, [])
  | Option.some h => (Status.SUCCESS, h env state)

/-- `Light::getSupportedTypes`: the keys of `lights`, in the map's
iteration order. -/
def getSupportedTypes : List LightType := lightsEntries.map Prod.fst

/-! ### Helper lemmas -/

theorem and_mask24_eq_mod (x : Nat) : x &&& 0x00ffffff = x % 2 ^ 24 := by
  have h := Nat.and_pow_two_sub_one_eq_mod x 24
  norm_num at h
  exact h

theorem and_mask8_eq_mod (x : Nat) : x &&& 0xff = x % 2 ^ 8 := by
  have h := Nat.and_pow_two_sub_one_eq_mod x 8
  norm_num at h
  exact h

/-- Converting a positive `int32_t` to `uint32_t` and reading the bit
pattern back as `int32_t` (as `%d` does) is the identity. -/
theorem int32_roundtrip (x : Int) (h0 : 0 < x) (h32 : x < 2 ^ 31) :
    int32OfUInt32 (uint32OfInt32 x) = x := by
  unfold uint32OfInt32 int32OfUInt32
  have hmod : x % 2 ^ 32 = x := by omega
  rw [hmod]
  have hlt : x.toNat < 2 ^ 31 := by omega
  rw [if_pos hlt]
  omega

/-! ### Claims -/

/-- Claim C3: for every packed color `0xAARRGGBB`, the luma equals
`(77*R + 150*G + 29*B) >>> 8`; in particular `luma 0x00FFFFFF = 255` and
`luma 0x00FF0000 = 76`, and the result is always at most 255. -/
theorem rgbToBrightness_spec (s : LightState) :
    rgbToBrightness s =
      (77 * ((s.color >>> 16) &&& 0xff) + 150 * ((s.color >>> 8) &&& 0xff) +
          29 * (s.color &&& 0xff)) >>> 8 ∧
    rgbToBrightness s ≤ 255 ∧
    rgbToBrightness ⟨0x00FFFFFF, Flash.NONE, 0, 0⟩ = 255 ∧
    rgbToBrightness ⟨0x00FF0000, Flash.NONE, 0, 0⟩ = 76 := by
  refine ⟨?_, ?_, by decide, by decide⟩
  · simp only [rgbToBrightness, and_mask24_eq_mod, and_mask8_eq_mod,
      Nat.shiftRight_eq_div_pow]
    omega
  · simp only [rgbToBrightness, and_mask24_eq_mod, and_mask8_eq_mod,
      Nat.shiftRight_eq_div_pow]
    omega

/-- Claim C5: the battery handler writes the identical luma as the
brightness of each of the three channel LEDs, with breath 0 when the luma
is 0 and breath 1 otherwise. -/
theorem handleBattery_spec (s : LightState) :
    handleBattery s =
      [⟨RED_LED ++ BREATH, Option.some (AttrValue.intVal (if rgbToBrightness s = 0 then 0 else 1))⟩,
       ⟨RED_LED ++ BRIGHTNESS, Option.some (AttrValue.intVal (rgbToBrightness s : Int))⟩,
       ⟨GREEN_LED ++ BREATH, Option.some (AttrValue.intVal (if rgbToBrightness s = 0 then 0 else 1))⟩,
       ⟨GREEN_LED ++ BRIGHTNESS, Option.some (AttrValue.intVal (rgbToBrightness s : Int))⟩,
       ⟨BLUE_LED ++ BREATH, Option.some (AttrValue.intVal (if rgbToBrightness s = 0 then 0 else 1))⟩,
       ⟨BLUE_LED ++ BRIGHTNESS, Option.some (AttrValue.intVal (rgbToBrightness s : Int))⟩] := by
  simp only [handleBattery, Nat.cast_eq_zero]

/-- Claim C1 (code bug): `handleBacklight` computes the scaled brightness
`luma * deviceMax / 255` (128 for luma 255 and device max 128, 255 for
luma 255 with the read failed), but its single `set` call passes only the
path `LCD_LED BRIGHTNESS` and no value, so the computed value is never
written. -/
theorem handleBacklight_spec :
    (∀ (env : Option Int) (s : LightState),
        handleBacklight env s = [⟨LCD_LED ++ BRIGHTNESS, Option.none⟩]) ∧
    backlightComputedBrightness (Option.some 128) ⟨0x00FFFFFF, Flash.NONE, 0, 0⟩ = 128 ∧
    backlightComputedBrightness Option.none ⟨0x00FFFFFF, Flash.NONE, 0, 0⟩ = 255 :=
  ⟨fun _ _ => rfl, by decide, by decide⟩

theorem lights_eval_BACKLIGHT :
    lights LightType.BACKLIGHT = Option.some (fun env state => handleBacklight env state) := rfl

theorem lights_eval_BATTERY :
    lights LightType.BATTERY = Option.some (fun _ state => handleBattery state) := rfl

theorem lights_eval_NOTIFICATIONS :
    lights LightType.NOTIFICATIONS = Option.some (fun _ state => handleNotification state) := rfl

theorem lights_eval_ATTENTION :
    lights LightType.ATTENTION = Option.some (fun _ state => handleNotification state) := rfl

theorem lights_eval_KEYBOARD : lights LightType.KEYBOARD = Option.none := rfl

theorem lights_eval_BUTTONS : lights LightType.BUTTONS = Option.none := rfl

theorem lights_eval_BLUETOOTH : lights LightType.BLUETOOTH = Option.none := rfl

theorem lights_eval_WIFI : lights LightType.WIFI = Option.none := rfl

theorem lights_eval_COUNT : lights LightType.COUNT = Option.none := rfl

/-- Claim C2: `setLight` returns `SUCCESS` on the four supported light
types, and `LIGHT_NOT_SUPPORTED` with no writes on every other type. -/
theorem setLight_spec (env : Option Int) (t : LightType) (s : LightState) :
    ((t = LightType.BACKLIGHT ∨ t = LightType.BATTERY ∨ t = LightType.NOTIFICATIONS ∨
        t = LightType.ATTENTION) → (setLight env t s).1 = Status.SUCCESS) ∧
    (¬(t = LightType.BACKLIGHT ∨ t = LightType.BATTERY ∨ t = LightType.NOTIFICATIONS ∨
        t = LightType.ATTENTION) → setLight env t s = (Status.LIGHT_NOT_SUPPORTED, [])) := by
  cases t <;>
    simp [setLight, lights_eval_BACKLIGHT, lights_eval_BATTERY, lights_eval_NOTIFICATIONS,
      lights_eval_ATTENTION, lights_eval_KEYBOARD, lights_eval_BUTTONS, lights_eval_BLUETOOTH,
      lights_eval_WIFI, lights_eval_COUNT]

/-- Witness for C2 at concrete inputs: `BATTERY` succeeds, `KEYBOARD` is
rejected with no writes. -/
theorem setLight_spec_witness :
    (setLight Option.none LightType.BATTERY ⟨0, Flash.NONE, 0, 0⟩).1 = Status.SUCCESS ∧
    setLight Option.none LightType.KEYBOARD ⟨0, Flash.NONE, 0, 0⟩ =
      (Status.LIGHT_NOT_SUPPORTED, []) :=
  ⟨(setLight_spec Option.none LightType.BATTERY ⟨0, Flash.NONE, 0, 0⟩).1
      (Or.inr (Or.inl rfl)),
   (setLight_spec Option.none LightType.KEYBOARD ⟨0, Flash.NONE, 0, 0⟩).2 (by decide)⟩

/-- Claim C6: with a non-timed flash mode, the notification handler first
clears all three channels (breath 0, brightness 0), then writes
brightness 255 on each channel if any alpha-scaled channel is positive,
and brightness 0 on each channel otherwise, with no further breath
write. -/
theorem handleNotification_untimed_spec (s : LightState) (hm : s.flashMode ≠ Flash.TIMED) :
    handleNotification s =
      clearWrites ++
        (if scaledRed s > 0 ∨ scaledGreen s > 0 ∨ scaledBlue s > 0 then
          [⟨RED_LED ++ BRIGHTNESS, Option.some (AttrValue.intVal 255)⟩,
           ⟨GREEN_LED ++ BRIGHTNESS, Option.some (AttrValue.intVal 255)⟩,
           ⟨BLUE_LED ++ BRIGHTNESS, Option.some (AttrValue.intVal 255)⟩]
        else
          [⟨RED_LED ++ BRIGHTNESS, Option.some (AttrValue.intVal 0)⟩,
           ⟨GREEN_LED ++ BRIGHTNESS, Option.some (AttrValue.intVal 0)⟩,
           ⟨BLUE_LED ++ BRIGHTNESS, Option.some (AttrValue.intVal 0)⟩]) := by
  simp only [handleNotification, if_neg hm, kDefaultMaxBrightness]

/-- Witness for C6: a solid green notification (flash mode `NONE`) clears
the channels and then writes 255 to each channel brightness. -/
theorem handleNotification_untimed_spec_witness :
    handleNotification ⟨0xFF00FF00, Flash.NONE, 0, 0⟩ =
      clearWrites ++
        [⟨RED_LED ++ BRIGHTNESS, Option.some (AttrValue.intVal 255)⟩,
         ⟨GREEN_LED ++ BRIGHTNESS, Option.some (AttrValue.intVal 255)⟩,
         ⟨BLUE_LED ++ BRIGHTNESS, Option.some (AttrValue.intVal 255)⟩] := by
  rw [handleNotification_untimed_spec ⟨0xFF00FF00, Flash.NONE, 0, 0⟩ (by decide)]
  decide

set_option maxRecDepth 10000 in
/-- Counterexample for C4 as stated: with `flashOnMs = flashOffMs =
1000000000` (and red at full alpha), the 44-character formatted pattern
string does not fit the 40-byte `snprintf` buffer; the handler writes its
39-character truncation instead of the full string the claim names. -/
theorem handleNotification_pattern_cx :
    ¬ (AttrWrite.mk (RED_LED ++ BREATH_PATTERN)
        (Option.some (AttrValue.strVal "1000000000 1000000000 1000000000 1000000000\n")) ∈
          handleNotification ⟨0xFFFF0000, Flash.TIMED, 1000000000, 1000000000⟩) ∧
    (AttrWrite.mk (RED_LED ++ BREATH_PATTERN)
        (Option.some (AttrValue.strVal "1000000000 1000000000 1000000000 100000")) ∈
          handleNotification ⟨0xFFFF0000, Flash.TIMED, 1000000000, 1000000000⟩) := by
  constructor
  · decide
  · decide

/-- Claim C4 (amended for the `snprintf` truncation): for a timed state
with positive on/off times (within `int32_t` range) and a positive
alpha-scaled channel, the handler clears the channels and then, per
channel, writes the pattern string
`"<flashOffMs> <flashOnMs> <flashOffMs> <flashOnMs>\n"` truncated to its
first 39 characters, breath 1, and brightness 255. -/
theorem handleNotification_timed_spec (s : LightState)
    (hm : s.flashMode = Flash.TIMED)
    (hon : s.flashOnMs > 0) (hoff : s.flashOffMs > 0)
    (hon32 : s.flashOnMs < 2 ^ 31) (hoff32 : s.flashOffMs < 2 ^ 31)
    (hc : scaledRed s > 0 ∨ scaledGreen s > 0 ∨ scaledBlue s > 0) :
    handleNotification s =
      clearWrites ++
        [⟨RED_LED ++ BREATH_PATTERN, Option.some (AttrValue.strVal
            ((toString s.flashOffMs ++ " " ++ toString s.flashOnMs ++ " " ++
              toString s.flashOffMs ++ " " ++ toString s.flashOnMs ++ "\n").take 39))⟩,
         ⟨RED_LED ++ BREATH, Option.some (AttrValue.intVal 1)⟩,
         ⟨RED_LED ++ BRIGHTNESS, Option.some (AttrValue.intVal 255)⟩,
         ⟨GREEN_LED ++ BREATH_PATTERN, Option.some (AttrValue.strVal
            ((toString s.flashOffMs ++ " " ++ toString s.flashOnMs ++ " " ++
              toString s.flashOffMs ++ " " ++ toString s.flashOnMs ++ "\n").take 39))⟩,
         ⟨GREEN_LED ++ BREATH, Option.some (AttrValue.intVal 1)⟩,
         ⟨GREEN_LED ++ BRIGHTNESS, Option.some (AttrValue.intVal 255)⟩,
         ⟨BLUE_LED ++ BREATH_PATTERN, Option.some (AttrValue.strVal
            ((toString s.flashOffMs ++ " " ++ toString s.flashOnMs ++ " " ++
              toString s.flashOffMs ++ " " ++ toString s.flashOnMs ++ "\n").take 39))⟩,
         ⟨BLUE_LED ++ BREATH, Option.some (AttrValue.intVal 1)⟩,
         ⟨BLUE_LED ++ BRIGHTNESS, Option.some (AttrValue.intVal 255)⟩] := by
  have hbreath : (if s.flashOnMs > 0 ∧ s.flashOffMs > 0 then (1 : Int) else 0) ≠ 0 := by
    rw [if_pos ⟨hon, hoff⟩]
    decide
  simp only [handleNotification, hm, if_pos rfl, if_pos hbreath, if_pos hc, hbreath,
    getBreathPatternValue, int32_roundtrip s.flashOnMs hon hon32,
    int32_roundtrip s.flashOffMs hoff hoff32, kDefaultMaxBrightness, ite_true]

set_option maxRecDepth 10000 in
/-- Witness for C4: flashing red with on/off 500 ms writes the full
pattern string `"500 500 500 500\n"` (16 characters, untruncated) plus
breath 1 and brightness 255 on each channel, after the clearing step. -/
theorem handleNotification_timed_spec_witness :
    handleNotification ⟨0xFFFF0000, Flash.TIMED, 500, 500⟩ =
      clearWrites ++
        [⟨RED_LED ++ BREATH_PATTERN, Option.some (AttrValue.strVal "500 500 500 500\n")⟩,
         ⟨RED_LED ++ BREATH, Option.some (AttrValue.intVal 1)⟩,
         ⟨RED_LED ++ BRIGHTNESS, Option.some (AttrValue.intVal 255)⟩,
         ⟨GREEN_LED ++ BREATH_PATTERN, Option.some (AttrValue.strVal "500 500 500 500\n")⟩,
         ⟨GREEN_LED ++ BREATH, Option.some (AttrValue.intVal 1)⟩,
         ⟨GREEN_LED ++ BRIGHTNESS, Option.some (AttrValue.intVal 255)⟩,
         ⟨BLUE_LED ++ BREATH_PATTERN, Option.some (AttrValue.strVal "500 500 500 500\n")⟩,
         ⟨BLUE_LED ++ BREATH, Option.some (AttrValue.intVal 1)⟩,
         ⟨BLUE_LED ++ BRIGHTNESS, Option.some (AttrValue.intVal 255)⟩] := by
  rw [handleNotification_timed_spec ⟨0xFFFF0000, Flash.TIMED, 500, 500⟩ rfl (by decide)
    (by decide) (by decide) (by decide) (Or.inl (by decide))]
  decide

set_option maxRecDepth 10000 in
/-- Counterexample for C7 as stated: a timed notification performs 15
attribute writes (6 clearing writes plus 3 per channel), which exceeds
the claimed bound of 7. -/
theorem setLight_write_count_cx :
    ((setLight Option.none LightType.NOTIFICATIONS ⟨0xFFFF0000, Flash.TIMED, 500, 500⟩).2).length
        = 15 ∧
    ¬ ((setLight Option.none LightType.NOTIFICATIONS
        ⟨0xFFFF0000, Flash.TIMED, 500, 500⟩).2).length ≤ 7 := by
  constructor
  · decide
  · decide

/-- Claim C7 (amended): every `setLight` call performs at most 15
attribute writes (the maximum is reached by the timed notification
path: 6 clearing writes plus 9 pattern/breath/brightness writes). -/
theorem setLight_write_count (env : Option Int) (t : LightType) (s : LightState) :
    ((setLight env t s).2).length ≤ 15 := by
  have hnotif : (handleNotification s).length ≤ 15 := by
    simp only [handleNotification]
    repeat' split
    all_goals simp [clearWrites]
  cases t <;>
    simp only [setLight, lights_eval_BACKLIGHT, lights_eval_BATTERY, lights_eval_NOTIFICATIONS,
      lights_eval_ATTENTION, lights_eval_KEYBOARD, lights_eval_BUTTONS, lights_eval_BLUETOOTH,
      lights_eval_WIFI, lights_eval_COUNT] <;>
    first
      | exact hnotif
      | simp [handleBacklight, handleBattery]

/-- Claim C8: `getSupportedTypes` returns exactly the four supported
types in the map's (deterministic, enum-ordered) iteration order, and its
members are exactly the keys on which the dispatch table is defined.  The
dispatch table is a global that no code ever mutates, so in the embedding
both are constants, independent of any `setLight` history and free of
side effects. -/
theorem getSupportedTypes_spec :
    getSupportedTypes =
      [LightType.BACKLIGHT, LightType.BATTERY, LightType.NOTIFICATIONS, LightType.ATTENTION] ∧
    ∀ t : LightType, t ∈ getSupportedTypes ↔ (lights t).isSome = true := by
  refine ⟨rfl, fun t => ?_⟩
  cases t <;>
    simp [getSupportedTypes, lightsEntries, lights_eval_BACKLIGHT, lights_eval_BATTERY,
      lights_eval_NOTIFICATIONS, lights_eval_ATTENTION, lights_eval_KEYBOARD,
      lights_eval_BUTTONS, lights_eval_BLUETOOTH, lights_eval_WIFI, lights_eval_COUNT]

/-- Claim C10: the backlight and battery handlers never consult the alpha
byte: two states that agree on the low 24 color bits (and the remaining
fields) produce identical write sequences under both handlers, whatever
their alpha bytes are. -/
theorem alpha_independent_handlers (s1 s2 : LightState) (env : Option Int)
    (hco : s1.color &&& 0x00ffffff = s2.color &&& 0x00ffffff)
    (_hfm : s1.flashMode = s2.flashMode)
    (_hon : s1.flashOnMs = s2.flashOnMs)
    (_hoff : s1.flashOffMs = s2.flashOffMs) :
    handleBacklight env s1 = handleBacklight env s2 ∧
    handleBattery s1 = handleBattery s2 := by
  have hrgb : rgbToBrightness s1 = rgbToBrightness s2 := by
    simp only [rgbToBrightness]
    rw [hco]
  exact ⟨rfl, by simp only [handleBattery, hrgb]⟩

/-- Witness for C10: colors `0x00123456` and `0xAB123456` differ only in
the alpha byte and drive the two handlers identically. -/
theorem alpha_independent_handlers_witness :
    handleBacklight (Option.some 100) ⟨0x00123456, Flash.NONE, 0, 0⟩ =
      handleBacklight (Option.some 100) ⟨0xAB123456, Flash.NONE, 0, 0⟩ ∧
    handleBattery ⟨0x00123456, Flash.NONE, 0, 0⟩ =
      handleBattery ⟨0xAB123456, Flash.NONE, 0, 0⟩ :=
  alpha_independent_handlers ⟨0x00123456, Flash.NONE, 0, 0⟩ ⟨0xAB123456, Flash.NONE, 0, 0⟩
    (Option.some 100) (by decide) rfl rfl rfl

end LightHAL
